import Mathlib

/-
Verification of `public/app.js` (`displayMessage`) against the repository
specification of the MessageDisplay component.

The JavaScript function is:

  function displayMessage(message) {
    var container = document.getElementById('message-box');
    container.innerHTML = message;
    fetch('/log-message', { method: 'POST', body: message });
  }

The embedding models the document as holding the optional raw `innerHTML`
string of the `message-box` element, network traffic as a list of issued
requests, and an uncaught JavaScript exception as a `thrown` outcome.
-/

namespace App

/-- A JavaScript runtime error. Assigning a property on `null` (as
`container.innerHTML = message` does when `getElementById` returned no
element) throws a `TypeError`. -/
inductive JSError where
  | typeError (msg : String)
deriving DecidableEq, Repr

/-- A JavaScript value, as far as this program produces one: the function
body has no `return` statement, so a normal completion yields `undefined`.
The `str` constructor exists so that `undefined` is not the only
inhabitant of the type. -/
inductive JSValue where
  | undefined
  | str (s : String)
deriving DecidableEq, Repr

/-- How a call completed: normally with a value, or by throwing. -/
inductive Outcome where
  | normal (v : JSValue)
  | thrown (e : JSError)
deriving DecidableEq, Repr

/-- An HTTP request as issued by `fetch(url, { method, body })`. -/
structure Request where
  url : String
  method : String
  body : String
deriving DecidableEq, Repr

/-- The document state relevant to the program: the raw `innerHTML` string
of the element with id `message-box`, or `none` when that element is
absent from the document. -/
structure Document where
  messageBox : Option String
deriving DecidableEq, Repr

/-- Result of running `displayMessage`: the outcome, the document after
the call, and the network requests issued during the call (in order). -/
structure RunResult where
  outcome : Outcome
  doc : Document
  requests : List Request
deriving DecidableEq, Repr

/-- Shallow embedding of `displayMessage` from `public/app.js`, line by
line: `document.getElementById('message-box')` yields `doc.messageBox`;
when it is `null`, the assignment `container.innerHTML = message` throws
a `TypeError` before the `fetch` call is reached and the document is
unchanged; otherwise the element's `innerHTML` is replaced by `message`
and `fetch('/log-message', { method: 'POST', body: message })` issues one
POST request whose body is `message`. There is no `return` statement, so
a normal completion yields `undefined`. -/
def displayMessage (doc : Document) (message : String) : RunResult :=
  match doc.messageBox with
  | none =>
      { outcome := Outcome.thrown
          (JSError.typeError "Cannot set properties of null"),
        doc := doc,
        requests := [] }
  | some _ =>
      { outcome := Outcome.normal JSValue.undefined,
        doc := { messageBox := some message },
        requests := [{ url := "/log-message", method := "POST",
                       body := message }] }

/-- Tag stripping over a character list, the `inTag` flag recording
whether the scan is currently inside a `<...>` tag. -/
def stripTagsAux : Bool → List Char → List Char
  | _, [] => []
  | false, c :: rest =>
      if c = '<' then stripTagsAux true rest
      else c :: stripTagsAux false rest
  | true, c :: rest =>
      if c = '>' then stripTagsAux false rest
      else stripTagsAux true rest

/-- The text rendered in an element whose `innerHTML` is `html`. Models
the browser behaviour that an `innerHTML` assignment parses its argument
as markup: everything between `<` and `>` is consumed as tag structure
and only the remaining character data is visible text. (A simplification
of real HTML parsing, faithful on the inputs used below.) -/
def renderedText (html : String) : String :=
  String.mk (stripTagsAux false html.data)

/-- The visible text of the `message-box` region of a document, when the
region exists. -/
def renderedBoxText (doc : Document) : Option String :=
  doc.messageBox.map renderedText

/-- The document after a call to `displayMessage` (on a thrown outcome
the document is left as it was when the exception was raised). -/
def runDisplay (doc : Document) (message : String) : Document :=
  (displayMessage doc message).doc

/-- C1: the spec claims that for every string `s` the region's rendered
text equals `s` exactly and no part of `s` is interpreted as markup. The
code assigns `innerHTML`, which parses `s` as markup: on the spec's own
example input the rendered text is not the literal string. -/
theorem displayMessage_interprets_markup :
    renderedBoxText
        (runDisplay { messageBox := some "" } "<img src=x onerror=alert(1)>")
      ≠ some "<img src=x onerror=alert(1)>" := by
  decide

/-- C2: the spec claims that when the region is absent the call is a
silent no-op. The code performs `container.innerHTML = message` on a
`null` container, throwing a `TypeError` instead of returning normally. -/
theorem displayMessage_faults_when_region_absent :
    (displayMessage { messageBox := none } "anything").outcome
      = Outcome.thrown (JSError.typeError "Cannot set properties of null") := by
  decide

/-- C3: the spec claims `show` produces no network traffic. The code
issues a `fetch` POST to `/log-message` on every call that reaches it:
with the region present and input `"hello"` the request list is
non-empty. -/
theorem displayMessage_issues_network_request :
    (displayMessage { messageBox := some "" } "hello").requests
      = [{ url := "/log-message", method := "POST", body := "hello" }]
    ∧ (displayMessage { messageBox := some "" } "hello").requests ≠ [] := by
  constructor
  · rfl
  · decide

/-- C4: the spec claims that on input `"<script>alert(1)</script>"` the
region's visible text is the literal string. The code parses the input
as markup, so the rendered text is `"alert(1)"` (the tag structure is
consumed), not the literal string. -/
theorem displayMessage_script_input_not_literal_text :
    renderedBoxText
        (runDisplay { messageBox := some "" } "<script>alert(1)</script>")
      = some "alert(1)"
    ∧ renderedBoxText
        (runDisplay { messageBox := some "" } "<script>alert(1)</script>")
      ≠ some "<script>alert(1)</script>" := by
  constructor
  · decide
  · decide

/-- C5: with the region present (any prior content) and input `"hello"`,
after `displayMessage` the region's rendered text is `"hello"`. -/
theorem displayMessage_hello_renders_hello (old : String) :
    renderedBoxText (runDisplay { messageBox := some old } "hello")
      = some "hello" := by
  rfl

/-- C6: the empty string is accepted without validation (the call
completes normally) and with the region present the region's rendered
text becomes empty. -/
theorem displayMessage_empty_renders_empty (old : String) :
    (displayMessage { messageBox := some old } "").outcome
        = Outcome.normal JSValue.undefined
    ∧ renderedBoxText (runDisplay { messageBox := some old } "")
        = some "" := by
  exact ⟨rfl, rfl⟩

/-- C7: the operation is idempotent on the display-region content: for
every document state and every string, running `displayMessage` twice
with the same string leaves the document in the same state as running it
once. -/
theorem displayMessage_idempotent_on_region (doc : Document) (s : String) :
    runDisplay (runDisplay doc s) s = runDisplay doc s := by
  rcases doc with ⟨mb⟩
  cases mb <;> rfl

/-- C8: `displayMessage` yields no result to its caller: whenever a call
completes normally, the value it returns is `undefined` (the function
body has no `return` statement). -/
theorem displayMessage_returns_undefined
    (doc : Document) (s : String) (v : JSValue)
    (h : (displayMessage doc s).outcome = Outcome.normal v) :
    v = JSValue.undefined := by
  rcases doc with ⟨mb⟩
  cases mb with
  | none => simp [displayMessage] at h
  | some old =>
      simp [displayMessage] at h
      exact h.symm

/-- Witness for C8 at a concrete call. -/
theorem displayMessage_returns_undefined_witness :
    JSValue.undefined = JSValue.undefined :=
  displayMessage_returns_undefined { messageBox := some "x" } "hello"
    JSValue.undefined (by decide)

/-- C9: when the region is absent, the call throws on the DOM write
before reaching the `fetch` call, so no POST request to `/log-message`
is issued on the error path. -/
theorem displayMessage_absent_no_request (s : String) :
    (∃ e, (displayMessage { messageBox := none } s).outcome
        = Outcome.thrown e)
    ∧ (displayMessage { messageBox := none } s).requests = [] := by
  exact ⟨⟨JSError.typeError "Cannot set properties of null", rfl⟩, rfl⟩

/-- C10: whenever the region is present, `displayMessage` issues exactly
one POST request, to `/log-message`, whose body is exactly the input
string, for every input string and prior region content. -/
theorem displayMessage_present_single_post (old s : String) :
    (displayMessage { messageBox := some old } s).requests
      = [{ url := "/log-message", method := "POST", body := s }] := by
  rfl

end App
